import Mathlib

/-!
# Verification of the stats-io bottleneck analysis engine

Shallow embedding of the Rust sources under `src-tauri/src`:
* `analysis/rules/mod.rs` (rule engine, `analyze_bottlenecks` and detectors),
* `analysis/rules/advanced.rs` (enhanced thermal, PCIe / memory-bus, multi-GPU),
* `analysis/comparison/mod.rs` (`compare_runs`),
* `metrics/collector/mod.rs` (ring-buffer append/evict, `start` / `stop`),
* `core/domain.rs`, `core/error.rs` (data model and error enums).

Modelling conventions:
* `f64` values are modelled by `V`: an exact rational together with the IEEE
  special values `nan`, `inf` (+∞) and `ninf` (−∞).  Finite arithmetic is
  exact (rounding and overflow of IEEE doubles are not modelled; the sign of
  zero is ignored).  All comparisons follow IEEE semantics: every comparison
  with `nan` is false, `partial_cmp` with `nan` is `none`, and `f64::min` /
  `f64::max` ignore a `nan` argument, as in Rust.
* Timestamps (`DateTime<Utc>`) are modelled as integer seconds, so chrono's
  `num_seconds` on a difference is plain integer subtraction.
* The `String` fields `summary` and `details` of a finding are produced in the
  source by fixed `format!` templates; they are modelled by the inductive
  `TextT`, one constructor per template, carrying the interpolated numeric
  arguments.  The rendered text is a function of this data.
* `HashMap` / `HashSet` iteration (whose order is arbitrary in Rust) is
  modelled by a canonical enumeration order; every quantity the claims speak
  about is independent of that order.
* The single panicking operation of the engine —
  `a.partial_cmp(b).unwrap()` inside `detect_storage_bottleneck` — is modelled
  by `Except Unit`; `.error ()` is a panic.  Every other `unwrap` in the
  source is guarded by an emptiness check and is modelled by a `getD` that is
  provably never hit.
-/

/-- IEEE-754 double values: exact rationals plus `nan` and the two infinities. -/
inductive V where
  | nan : V
  | inf : V
  | ninf : V
  | fin (q : ℚ) : V
deriving DecidableEq, Repr

/-- IEEE negation. -/
def V.neg : V → V
  | nan => nan
  | inf => ninf
  | ninf => inf
  | fin q => fin (-q)

/-- IEEE addition (`+` on `f64`). -/
def V.add : V → V → V
  | nan, _ => nan
  | _, nan => nan
  | inf, ninf => nan
  | ninf, inf => nan
  | inf, _ => inf
  | _, inf => inf
  | ninf, _ => ninf
  | _, ninf => ninf
  | fin a, fin b => fin (a + b)

/-- IEEE subtraction (`-` on `f64`). -/
def V.sub (a b : V) : V := V.add a (V.neg b)

/-- IEEE multiplication (`*` on `f64`). -/
def V.mul : V → V → V
  | nan, _ => nan
  | _, nan => nan
  | inf, inf => inf
  | inf, ninf => ninf
  | ninf, inf => ninf
  | ninf, ninf => inf
  | inf, fin q => if q = 0 then nan else if 0 < q then inf else ninf
  | fin q, inf => if q = 0 then nan else if 0 < q then inf else ninf
  | ninf, fin q => if q = 0 then nan else if 0 < q then ninf else inf
  | fin q, ninf => if q = 0 then nan else if 0 < q then ninf else inf
  | fin a, fin b => fin (a * b)

/-- IEEE division (`/` on `f64`; the sign of zero is ignored, a zero divisor
behaves like `+0`). -/
def V.div : V → V → V
  | nan, _ => nan
  | _, nan => nan
  | inf, inf => nan
  | inf, ninf => nan
  | ninf, inf => nan
  | ninf, ninf => nan
  | inf, fin q => if 0 ≤ q then inf else ninf
  | ninf, fin q => if 0 ≤ q then ninf else inf
  | fin _, inf => fin 0
  | fin _, ninf => fin 0
  | fin a, fin b =>
      if b = 0 then (if a = 0 then nan else if 0 < a then inf else ninf)
      else fin (a / b)

/-- IEEE `<` : false whenever either side is `nan`. -/
def V.lt : V → V → Bool
  | nan, _ => false
  | _, nan => false
  | ninf, ninf => false
  | ninf, _ => true
  | _, ninf => false
  | inf, _ => false
  | _, inf => true
  | fin a, fin b => decide (a < b)

/-- IEEE `≤` : false whenever either side is `nan`. -/
def V.le : V → V → Bool
  | nan, _ => false
  | _, nan => false
  | ninf, _ => true
  | _, ninf => false
  | _, inf => true
  | inf, _ => false
  | fin a, fin b => decide (a ≤ b)

/-- IEEE `>`. -/
def V.gt (a b : V) : Bool := V.lt b a

/-- IEEE `≥`. -/
def V.ge (a b : V) : Bool := V.le b a

/-- IEEE `==` : false whenever either side is `nan`. -/
def V.eqb : V → V → Bool
  | nan, _ => false
  | _, nan => false
  | a, b => decide (a = b)

/-- IEEE `!=` : true whenever either side is `nan` (Rust `run1_avg != 0.0`). -/
def V.neb (a b : V) : Bool := !(V.eqb a b)

/-- Rust `f64::max`: ignores a `nan` argument. -/
def V.fmax : V → V → V
  | nan, b => b
  | a, nan => a
  | a, b => if V.le a b then b else a

/-- Rust `f64::min`: ignores a `nan` argument. -/
def V.fmin : V → V → V
  | nan, b => b
  | a, nan => a
  | a, b => if V.le a b then a else b

/-- Rust `a.partial_cmp(b)`: `none` iff either side is `nan`. -/
def V.pcmp : V → V → Option Ordering
  | nan, _ => none
  | _, nan => none
  | a, b => some (if V.lt a b then .lt else if a = b then .eq else .gt)

/-- Rust `as u8` on an `f64`: truncate toward zero, saturate to `[0, 255]`,
`nan` goes to `0`. -/
def V.toU8 : V → ℕ
  | nan => 0
  | ninf => 0
  | inf => 255
  | fin q => if q ≤ 0 then 0 else if 255 ≤ q then 255 else q.floor.toNat

/-- IEEE absolute value (`f64::abs`). -/
def V.vabs : V → V
  | nan => nan
  | inf => inf
  | ninf => inf
  | fin q => fin |q|

/-- `.sum::<f64>()` over a list of values (left fold starting at `0.0`). -/
def vsum (l : List V) : V := l.foldl V.add (V.fin 0)

/-- `V.fin` of a natural number (Rust `len() as f64`). -/
def V.ofNat (n : ℕ) : V := V.fin (n : ℚ)

/-- `metric_type` tags of `core/domain.rs::MetricType`. -/
inductive MetricType where
  | CpuUtilization | CpuUtilizationPerCore | GpuUtilization | GpuVramUsage
  | GpuTemperature | GpuClock | MemoryUsage | MemorySwapUsage
  | StorageReadThroughput | StorageWriteThroughput | StorageQueueDepth
  | MemoryReadThroughput | MemoryWriteThroughput | GpuMemoryTransfer
  | Temperature | FanSpeed | Fps | FrameTime | RenderTime
deriving DecidableEq, Repr

/-- The `format!("{:?}", metric_type)` key used by the comparison engine. -/
def MetricType.debugStr : MetricType → String
  | .CpuUtilization => "CpuUtilization"
  | .CpuUtilizationPerCore => "CpuUtilizationPerCore"
  | .GpuUtilization => "GpuUtilization"
  | .GpuVramUsage => "GpuVramUsage"
  | .GpuTemperature => "GpuTemperature"
  | .GpuClock => "GpuClock"
  | .MemoryUsage => "MemoryUsage"
  | .MemorySwapUsage => "MemorySwapUsage"
  | .StorageReadThroughput => "StorageReadThroughput"
  | .StorageWriteThroughput => "StorageWriteThroughput"
  | .StorageQueueDepth => "StorageQueueDepth"
  | .MemoryReadThroughput => "MemoryReadThroughput"
  | .MemoryWriteThroughput => "MemoryWriteThroughput"
  | .GpuMemoryTransfer => "GpuMemoryTransfer"
  | .Temperature => "Temperature"
  | .FanSpeed => "FanSpeed"
  | .Fps => "Fps"
  | .FrameTime => "FrameTime"
  | .RenderTime => "RenderTime"

/-- The 19 metric kinds, in declaration order (canonical map-iteration order). -/
def allMetricTypes : List MetricType :=
  [.CpuUtilization, .CpuUtilizationPerCore, .GpuUtilization, .GpuVramUsage,
   .GpuTemperature, .GpuClock, .MemoryUsage, .MemorySwapUsage,
   .StorageReadThroughput, .StorageWriteThroughput, .StorageQueueDepth,
   .MemoryReadThroughput, .MemoryWriteThroughput, .GpuMemoryTransfer,
   .Temperature, .FanSpeed, .Fps, .FrameTime, .RenderTime]

/-- `core/domain.rs::MetricSample` (timestamps in whole seconds). -/
structure MetricSample where
  timestamp : ℤ
  metric_type : MetricType
  value : V
  unit : String
  source_component : String
deriving DecidableEq, Repr

/-- `core/domain.rs::BottleneckType`. -/
inductive BottleneckType where
  | Cpu | Gpu | Ram | Vram | Storage | Thermal | Bandwidth
deriving DecidableEq, Repr

/-- The `format!("{:?}", bottleneck_type)` key used by the comparison engine. -/
def BottleneckType.debugStr : BottleneckType → String
  | .Cpu => "Cpu"
  | .Gpu => "Gpu"
  | .Ram => "Ram"
  | .Vram => "Vram"
  | .Storage => "Storage"
  | .Thermal => "Thermal"
  | .Bandwidth => "Bandwidth"

/-- The 7 bottleneck types, in declaration order. -/
def allBottleneckTypes : List BottleneckType :=
  [.Cpu, .Gpu, .Ram, .Vram, .Storage, .Thermal, .Bandwidth]

/-- `core/domain.rs::EvidenceItem`. -/
structure EvidenceItem where
  metric_type : MetricType
  threshold : V
  actual_value : V
  time_range_start : ℤ
  time_range_end : ℤ
deriving DecidableEq, Repr

/-- The `format!` templates producing the `summary` / `details` strings of a
finding, one constructor per template of `rules/mod.rs` and
`rules/advanced.rs`, carrying the interpolated numeric arguments. -/
inductive TextT where
  | cpuSummary (avg thr : V)
  | cpuDetails (avg gpu : V)
  | gpuSummary (avg thr : V)
  | gpuDetails (avg cpu : V)
  | gpuStarvedSummary (avg variance : V)
  | gpuStarvedDetails (avg variance : V)
  | vramSummary (avg : V)
  | vramDetails (avg : V)
  | storageSummary (avg : V)
  | storageDetails (avg : V)
  | ramSummary (avg thr : V)
  | ramDetailsSwap (avg : V)
  | ramDetailsNoSwap (avg : V)
  | legacyThermalSummary (maxT thr : V)
  | legacyThermalDetails (maxT avg : V)
  | pcieSummary
  | pcieDetails (pct est maxBw : V)
  | memBusSummary
  | memBusDetails (pct total maxBw : V)
  | criticalThermalSummary
  | criticalThermalDetails (latest thr : V)
  | predictiveThermalSummary
  | predictiveThermalDetails (latest rate timeToThrottle : V)
  | warningThermalSummary
  | warningThermalDetails (latest thr : V)
  | multiGpuImbalanceSummary
  | multiGpuImbalanceDetails (spread maxU minU : V)
  | multiGpuSaturatedSummary
  | multiGpuSaturatedDetails (n : ℕ) (avg : V)
deriving DecidableEq, Repr

/-- `core/domain.rs::Bottleneck` (severity a `u8`, modelled as `ℕ`). -/
structure Bottleneck where
  bottleneck_type : BottleneckType
  severity : ℕ
  evidence : List EvidenceItem
  summary : TextT
  details : TextT
deriving DecidableEq, Repr

/-- `core/domain.rs::BottleneckAnalysisResult`. -/
structure BottleneckAnalysisResult where
  bottlenecks : List Bottleneck
  timestamp : ℤ
deriving DecidableEq, Repr

/-- `core/domain.rs::WorkloadType`. -/
inductive WorkloadType where
  | Gaming | Rendering | AI | Productivity | General
deriving DecidableEq, Repr

/-- `core/domain.rs::ThresholdOverrides` (optional `f64` overrides). -/
structure ThresholdOverrides where
  cpu_high : Option V
  gpu_high : Option V
  ram_high : Option V
  vram_high : Option V
deriving DecidableEq, Repr

/-- `core/domain.rs::WorkloadProfile` (the free-form `parameters` map is
irrelevant to the engine; its JSON values are abstracted to strings). -/
structure WorkloadProfile where
  id : String
  name : String
  workload_type : WorkloadType
  parameters : List (String × String)
  threshold_overrides : Option ThresholdOverrides
deriving DecidableEq, Repr

/-- Filter a sample list to one metric kind (the
`metrics.iter().filter(|m| m.metric_type == t)` idiom). -/
def ofType (mt : MetricType) (metrics : List MetricSample) : List MetricSample :=
  metrics.filter (fun m => decide (m.metric_type = mt))

/-- The values of the samples of one metric kind. -/
def valsOf (mt : MetricType) (metrics : List MetricSample) : List V :=
  (ofType mt metrics).map (·.value)

/-- `iter().map(|m| m.value).sum::<f64>() / len as f64`. -/
def vmean (l : List V) : V := V.div (vsum l) (V.ofNat l.length)

/-- Placeholder sample for the `getD` defaults standing in for the
emptiness-guarded `first().unwrap()` / `last().unwrap()` of the source. -/
def dummySample : MetricSample :=
  { timestamp := 0, metric_type := .CpuUtilization, value := V.fin 0,
    unit := "", source_component := "" }

/-- `first().unwrap().timestamp` (call sites guard non-emptiness). -/
def firstTs (l : List MetricSample) : ℤ := (l.headD dummySample).timestamp

/-- `last().unwrap().timestamp` (call sites guard non-emptiness). -/
def lastTs (l : List MetricSample) : ℤ := (l.getLastD dummySample).timestamp

/-- `rules/mod.rs::calculate_severity`: 0 below the threshold, otherwise the
threshold plus the capped exceedance ratio rescaled to the remaining range,
cast `as u8`. -/
def calculate_severity (actual_value threshold : V) : ℕ :=
  if V.le actual_value threshold then 0
  else
    V.toU8 (V.add threshold
      (V.mul
        (V.fmin (V.div (V.sub actual_value threshold) (V.sub (V.fin 100) threshold))
          (V.fin 1))
        (V.sub (V.fin 100) threshold)))

/-- Mean CPU utilization of a window (guarded non-empty at call sites). -/
def cpuMean (metrics : List MetricSample) : V := vmean (valsOf .CpuUtilization metrics)

/-- Mean GPU utilization of a window (guarded non-empty at call sites). -/
def gpuMean (metrics : List MetricSample) : V := vmean (valsOf .GpuUtilization metrics)

/-- The `avg_gpu` of `detect_cpu_bottleneck`: mean GPU utilization, `0.0` when
there are no GPU samples. -/
def gpuMeanOrZero (metrics : List MetricSample) : V :=
  if (ofType .GpuUtilization metrics).isEmpty then V.fin 0 else gpuMean metrics

/-- The `avg_cpu` of `detect_gpu_bottleneck`: mean CPU utilization, `0.0` when
there are no CPU samples. -/
def cpuMeanOrZero (metrics : List MetricSample) : V :=
  if (ofType .CpuUtilization metrics).isEmpty then V.fin 0 else cpuMean metrics

/-- `rules/mod.rs::detect_cpu_bottleneck`.  Note: the firing test uses the
effective `threshold`, but the severity is computed against the global
default `CPU_HIGH_THRESHOLD = 85.0`. -/
def detect_cpu_bottleneck (metrics : List MetricSample) (threshold_override : Option V) :
    Option Bottleneck :=
  if (ofType .CpuUtilization metrics).isEmpty then none
  else
    if V.gt (cpuMean metrics) (threshold_override.getD (V.fin 85)) &&
        V.lt (gpuMeanOrZero metrics) (V.fin 70) then
      some {
        bottleneck_type := .Cpu,
        severity := calculate_severity (cpuMean metrics) (V.fin 85),
        evidence := [{
          metric_type := .CpuUtilization,
          threshold := threshold_override.getD (V.fin 85),
          actual_value := cpuMean metrics,
          time_range_start := firstTs (ofType .CpuUtilization metrics),
          time_range_end := lastTs (ofType .CpuUtilization metrics) }],
        summary := .cpuSummary (cpuMean metrics) (threshold_override.getD (V.fin 85)),
        details := .cpuDetails (cpuMean metrics) (gpuMeanOrZero metrics) }
    else none

/-- `rules/mod.rs::detect_gpu_bottleneck`. -/
def detect_gpu_bottleneck (metrics : List MetricSample) (threshold_override : Option V) :
    Option Bottleneck :=
  if (ofType .GpuUtilization metrics).isEmpty then none
  else
    if V.gt (gpuMean metrics) (threshold_override.getD (V.fin 90)) &&
        V.lt (cpuMeanOrZero metrics) (V.fin 80) then
      some {
        bottleneck_type := .Gpu,
        severity := calculate_severity (gpuMean metrics) (threshold_override.getD (V.fin 90)),
        evidence := [{
          metric_type := .GpuUtilization,
          threshold := threshold_override.getD (V.fin 90),
          actual_value := gpuMean metrics,
          time_range_start := firstTs (ofType .GpuUtilization metrics),
          time_range_end := lastTs (ofType .GpuUtilization metrics) }],
        summary := .gpuSummary (gpuMean metrics) (threshold_override.getD (V.fin 90)),
        details := .gpuDetails (gpuMean metrics) (cpuMeanOrZero metrics) }
    else none

/-- `rules/mod.rs::detect_vram_bottleneck`: an acknowledged placeholder — it
fires on any consistently positive VRAM usage (`max > 0 && avg > 0`) with a
constant severity of 70; the threshold only lands in the evidence. -/
def detect_vram_bottleneck (metrics : List MetricSample) (threshold_override : Option V) :
    Option Bottleneck :=
  if (ofType .GpuVramUsage metrics).isEmpty then none
  else
    if V.gt ((valsOf .GpuVramUsage metrics).foldl V.fmax (V.fin 0)) (V.fin 0) &&
        V.gt (vmean (valsOf .GpuVramUsage metrics)) (V.fin 0) then
      some {
        bottleneck_type := .Vram,
        severity := 70,
        evidence := [{
          metric_type := .GpuVramUsage,
          threshold := threshold_override.getD (V.fin 90),
          actual_value := vmean (valsOf .GpuVramUsage metrics),
          time_range_start := firstTs (ofType .GpuVramUsage metrics),
          time_range_end := lastTs (ofType .GpuVramUsage metrics) }],
        summary := .vramSummary (vmean (valsOf .GpuVramUsage metrics)),
        details := .vramDetails (vmean (valsOf .GpuVramUsage metrics)) }
    else none

/-- The accumulator loop of `iter().max_by(|a, b| a.partial_cmp(b).unwrap())`:
Rust folds `max_by(acc, y, compare)` which keeps `acc` iff
`compare(&y, &acc) == Less`, and the `unwrap` panics (`.error ()`) as soon as
a compared pair contains a `nan`. -/
def maxByGo (acc : V) : List V → Except Unit (Option V)
  | [] => .ok (some acc)
  | y :: ys =>
      match V.pcmp y acc with
      | none => .error ()
      | some o => maxByGo (if o = Ordering.lt then acc else y) ys

/-- `iter().max_by(...)` over a value list (`none` on an empty iterator). -/
def maxByPanic : List V → Except Unit (Option V)
  | [] => .ok none
  | x :: xs => maxByGo x xs

/-- `rules/mod.rs::detect_storage_bottleneck`.  The only way the rule engine
can panic: the `max_by` comparator unwraps `partial_cmp`. -/
def detect_storage_bottleneck (metrics : List MetricSample) :
    Except Unit (Option Bottleneck) :=
  match maxByPanic (valsOf .StorageQueueDepth metrics) with
  | .error e => .error e
  | .ok none => .ok none
  | .ok (some max_queue) =>
      if V.gt max_queue (V.fin 10) then
        .ok (some {
          bottleneck_type := .Storage,
          severity := max (V.toU8 (V.fmin (vmean (valsOf .StorageQueueDepth metrics)) (V.fin 100))) 50,
          evidence := [{
            metric_type := .StorageQueueDepth,
            threshold := V.fin 10,
            actual_value := vmean (valsOf .StorageQueueDepth metrics),
            time_range_start := firstTs (ofType .StorageQueueDepth metrics),
            time_range_end := lastTs (ofType .StorageQueueDepth metrics) }],
          summary := .storageSummary (vmean (valsOf .StorageQueueDepth metrics)),
          details := .storageDetails (vmean (valsOf .StorageQueueDepth metrics)) })
      else .ok none

/-- The `has_swap_usage` test of `detect_ram_bottleneck`: some swap sample
exists and some swap sample is positive. -/
def hasSwapUsage (metrics : List MetricSample) : Bool :=
  !(ofType .MemorySwapUsage metrics).isEmpty &&
    (ofType .MemorySwapUsage metrics).any (fun m => V.gt m.value (V.fin 0))

/-- `rules/mod.rs::detect_ram_bottleneck`. -/
def detect_ram_bottleneck (metrics : List MetricSample) (threshold_override : Option V) :
    Option Bottleneck :=
  if (ofType .MemoryUsage metrics).isEmpty then none
  else
    if V.gt (vmean (valsOf .MemoryUsage metrics)) (threshold_override.getD (V.fin 90)) ||
        hasSwapUsage metrics then
      some {
        bottleneck_type := .Ram,
        severity :=
          if hasSwapUsage metrics then
            max (V.toU8 (V.fmin (vmean (valsOf .MemoryUsage metrics)) (V.fin 100))) 80
          else calculate_severity (vmean (valsOf .MemoryUsage metrics))
            (threshold_override.getD (V.fin 90)),
        evidence := [{
          metric_type := .MemoryUsage,
          threshold := threshold_override.getD (V.fin 90),
          actual_value := vmean (valsOf .MemoryUsage metrics),
          time_range_start := firstTs (ofType .MemoryUsage metrics),
          time_range_end := lastTs (ofType .MemoryUsage metrics) }] ++
          (if hasSwapUsage metrics then [{
            metric_type := .MemorySwapUsage,
            threshold := V.fin 0,
            actual_value := vmean (valsOf .MemorySwapUsage metrics),
            time_range_start := firstTs (ofType .MemorySwapUsage metrics),
            time_range_end := lastTs (ofType .MemorySwapUsage metrics) }] else []),
        summary := .ramSummary (vmean (valsOf .MemoryUsage metrics))
          (threshold_override.getD (V.fin 90)),
        details :=
          if hasSwapUsage metrics then .ramDetailsSwap (vmean (valsOf .MemoryUsage metrics))
          else .ramDetailsNoSwap (vmean (valsOf .MemoryUsage metrics)) }
    else none

/-- `rules/mod.rs::detect_thermal_throttling` — the legacy 90/95 form. -/
def detect_thermal_throttling (metrics : List MetricSample) : Option Bottleneck :=
  if (ofType .Temperature metrics).isEmpty then none
  else
    let max_temp := (valsOf .Temperature metrics).foldl V.fmax V.ninf
    let avg_temp := vmean (valsOf .Temperature metrics)
    if V.ge max_temp (V.fin 90) || V.ge avg_temp (V.fin 90) then
      some {
        bottleneck_type := .Thermal,
        severity := min
          (if V.ge max_temp (V.fin 95) then 100
           else if V.ge max_temp (V.fin 90) then
             V.toU8 (V.add
               (V.mul (V.div (V.sub max_temp (V.fin 90)) (V.sub (V.fin 95) (V.fin 90)))
                 (V.fin 50))
               (V.fin 50))
           else
             V.toU8 (V.mul (V.div (V.sub avg_temp (V.fin 80)) (V.sub (V.fin 90) (V.fin 80)))
               (V.fin 50)))
          100,
        evidence := [{
          metric_type := .Temperature,
          threshold := V.fin 90,
          actual_value := max_temp,
          time_range_start := firstTs (ofType .Temperature metrics),
          time_range_end := lastTs (ofType .Temperature metrics) }],
        summary := .legacyThermalSummary max_temp (V.fin 90),
        details := .legacyThermalDetails max_temp avg_temp }
    else none

/-- `rules/advanced.rs::detect_pcie_saturation`.  The "bandwidth" estimate is
the last storage read sample plus the last storage write sample, compared
against 85% of the hardcoded PCIe 3.0 x16 maximum of 15760 MB/s. -/
def detect_pcie_saturation (metrics : List MetricSample) : Option Bottleneck :=
  let pcie_metrics := metrics.filter (fun m =>
    decide (m.metric_type = .GpuUtilization) || decide (m.metric_type = .GpuMemoryTransfer) ||
    decide (m.metric_type = .StorageReadThroughput) ||
    decide (m.metric_type = .StorageWriteThroughput))
  if pcie_metrics.isEmpty then none
  else
    let est := V.add
      (((pcie_metrics.filter (fun m => decide (m.metric_type = .StorageReadThroughput))).map
        (·.value)).getLastD (V.fin 0))
      (((pcie_metrics.filter (fun m => decide (m.metric_type = .StorageWriteThroughput))).map
        (·.value)).getLastD (V.fin 0))
    let pct := V.mul (V.div est (V.fin 15760)) (V.fin 100)
    if V.ge pct (V.fin 85) then
      some {
        bottleneck_type := .Bandwidth,
        severity := if V.ge pct (V.fin 95) then 90 else if V.ge pct (V.fin 90) then 75 else 60,
        evidence := [{
          metric_type := .StorageReadThroughput,
          threshold := V.mul (V.fin 15760) (V.div (V.fin 85) (V.fin 100)),
          actual_value := est,
          time_range_start := firstTs pcie_metrics,
          time_range_end := lastTs pcie_metrics }],
        summary := .pcieSummary,
        details := .pcieDetails pct est (V.fin 15760) }
    else none

/-- `rules/advanced.rs::detect_memory_bus_saturation`: mean in-window memory
read plus write throughput (dividing by `count.max(1)`) against 80% of the
hardcoded DDR4-3200 dual-channel maximum of 51200 MB/s. -/
def detect_memory_bus_saturation (metrics : List MetricSample) : Option Bottleneck :=
  let memory_metrics := metrics.filter (fun m =>
    decide (m.metric_type = .MemoryUsage) || decide (m.metric_type = .MemoryReadThroughput) ||
    decide (m.metric_type = .MemoryWriteThroughput))
  if memory_metrics.isEmpty then none
  else
    let reads := (memory_metrics.filter (fun m =>
      decide (m.metric_type = .MemoryReadThroughput))).map (·.value)
    let writes := (memory_metrics.filter (fun m =>
      decide (m.metric_type = .MemoryWriteThroughput))).map (·.value)
    let total := V.add (V.div (vsum reads) (V.ofNat (max reads.length 1)))
      (V.div (vsum writes) (V.ofNat (max writes.length 1)))
    let pct := V.mul (V.div total (V.fin 51200)) (V.fin 100)
    if V.ge pct (V.fin 80) then
      some {
        bottleneck_type := .Bandwidth,
        severity := if V.ge pct (V.fin 95) then 85 else if V.ge pct (V.fin 90) then 70 else 55,
        evidence := [{
          metric_type := .MemoryReadThroughput,
          threshold := V.mul (V.fin 51200) (V.div (V.fin 80) (V.fin 100)),
          actual_value := total,
          time_range_start := firstTs memory_metrics,
          time_range_end := lastTs memory_metrics }],
        summary := .memBusSummary,
        details := .memBusDetails pct total (V.fin 51200) }
    else none

/-- Stable insertion by timestamp: the inserted (originally earlier) sample
goes before every later sample with an equal or larger timestamp. -/
def insertByTs (x : MetricSample) : List MetricSample → List MetricSample
  | [] => [x]
  | y :: ys => if x.timestamp ≤ y.timestamp then x :: y :: ys else y :: insertByTs x ys

/-- The stable `sort_by_key(|m| m.timestamp)` of Rust. -/
def sortByTs : List MetricSample → List MetricSample
  | [] => []
  | x :: xs => insertByTs x (sortByTs xs)

/-- The in-window temperature samples, time-sorted (`sorted_temps`). -/
def tempsSorted (metrics : List MetricSample) : List MetricSample :=
  sortByTs (ofType .Temperature metrics)

/-- `latest_temp`: value of the last time-sorted temperature sample
(call sites guard at least 2 samples). -/
def latestTemp (metrics : List MetricSample) : V :=
  ((tempsSorted metrics).getLastD dummySample).value

/-- `time_diff_minutes`: seconds between first and last sorted temperature
sample, divided by 60.0. -/
def thermalTimeDiffMin (metrics : List MetricSample) : V :=
  V.div
    (V.fin (((((tempsSorted metrics).getLastD dummySample).timestamp -
      ((tempsSorted metrics).headD dummySample).timestamp : ℤ) : ℚ)))
    (V.fin 60)

/-- `temp_rise_rate`: temperature change per minute, `0.0` when the samples
span no positive time. -/
def tempRiseRate (metrics : List MetricSample) : V :=
  if V.gt (thermalTimeDiffMin metrics) (V.fin 0) then
    V.div
      (V.sub ((tempsSorted metrics).getLastD dummySample).value
        ((tempsSorted metrics).headD dummySample).value)
      (thermalTimeDiffMin metrics)
  else V.fin 0

/-- `predicted_time_to_throttle` of the predictive branch. -/
def predictedTimeToThrottle (metrics : List MetricSample) : V :=
  if V.gt (tempRiseRate metrics) (V.fin 0) then
    V.div (V.sub (V.fin 85) (latestTemp metrics)) (tempRiseRate metrics)
  else V.inf

/-- `rules/advanced.rs::detect_enhanced_thermal_bottleneck`: requires at least
2 in-window temperature samples; critical at `latest ≥ 85`, else predictive at
`latest ≥ 70` with rise rate `≥ 2.0` °C/min, else a flat-50 warning at
`latest ≥ 75`. -/
def detect_enhanced_thermal_bottleneck (metrics : List MetricSample) : Option Bottleneck :=
  if (ofType .Temperature metrics).length < 2 then none
  else
    if V.ge (latestTemp metrics) (V.fin 85) then
      some {
        bottleneck_type := .Thermal,
        severity :=
          if V.ge (latestTemp metrics) (V.fin 95) then 95
          else if V.ge (latestTemp metrics) (V.fin 90) then 85
          else 75,
        evidence := [{
          metric_type := .Temperature,
          threshold := V.fin 85,
          actual_value := latestTemp metrics,
          time_range_start := ((tempsSorted metrics).headD dummySample).timestamp,
          time_range_end := ((tempsSorted metrics).getLastD dummySample).timestamp }],
        summary := .criticalThermalSummary,
        details := .criticalThermalDetails (latestTemp metrics) (V.fin 85) }
    else if V.ge (latestTemp metrics) (V.fin 70) && V.ge (tempRiseRate metrics) (V.fin 2) then
      some {
        bottleneck_type := .Thermal,
        severity :=
          if V.lt (predictedTimeToThrottle metrics) (V.fin 5) then 70
          else if V.lt (predictedTimeToThrottle metrics) (V.fin 10) then 55
          else 40,
        evidence := [{
          metric_type := .Temperature,
          threshold := V.fin 70,
          actual_value := latestTemp metrics,
          time_range_start := ((tempsSorted metrics).headD dummySample).timestamp,
          time_range_end := ((tempsSorted metrics).getLastD dummySample).timestamp }],
        summary := .predictiveThermalSummary,
        details := .predictiveThermalDetails (latestTemp metrics) (tempRiseRate metrics)
          (predictedTimeToThrottle metrics) }
    else if V.ge (latestTemp metrics) (V.fin 75) then
      some {
        bottleneck_type := .Thermal,
        severity := 50,
        evidence := [{
          metric_type := .Temperature,
          threshold := V.fin 75,
          actual_value := latestTemp metrics,
          time_range_start := ((tempsSorted metrics).headD dummySample).timestamp,
          time_range_end := ((tempsSorted metrics).getLastD dummySample).timestamp }],
        summary := .warningThermalSummary,
        details := .warningThermalDetails (latestTemp metrics) (V.fin 75) }
    else none

/-- Does one character list contain the other as a contiguous run
(Rust `str::contains`)? -/
def listContainsRun (needle : List Char) : List Char → Bool
  | [] => needle.isEmpty
  | c :: rest => needle.isPrefixOf (c :: rest) || listContainsRun needle rest

/-- Rust `source_component.contains("GPU")`. -/
def containsGPUMarker (s : String) : Bool := listContainsRun "GPU".data s.data

/-- First-occurrence deduplication (the contents of the Rust `HashSet` of GPU
source labels, enumerated canonically in first-appearance order). -/
def dedupFirst (l : List String) : List String :=
  l.foldl (fun acc s => if s ∈ acc then acc else acc ++ [s]) []

/-- The per-source mean GPU utilizations (`gpu_utilizations`): for every
distinct GPU-marked source label, the mean of its `GpuUtilization` samples,
skipping sources with none. -/
def gpuUtilizations (metrics : List MetricSample) : List (String × V) :=
  let gpu_metrics := metrics.filter (fun m =>
    decide (m.metric_type = .GpuUtilization) || decide (m.metric_type = .GpuVramUsage))
  (dedupFirst ((gpu_metrics.filter (fun m => containsGPUMarker m.source_component)).map
    (·.source_component))).filterMap (fun src =>
      let utils := (gpu_metrics.filter (fun m =>
        decide (m.source_component = src) && decide (m.metric_type = .GpuUtilization))).map
        (·.value)
      if utils.isEmpty then none else some (src, vmean utils))

/-- `rules/advanced.rs::detect_multi_gpu_bottleneck`. -/
def detect_multi_gpu_bottleneck (metrics : List MetricSample) : Option Bottleneck :=
  let gpu_metrics := metrics.filter (fun m =>
    decide (m.metric_type = .GpuUtilization) || decide (m.metric_type = .GpuVramUsage))
  if gpu_metrics.isEmpty then none
  else
    if (dedupFirst ((gpu_metrics.filter (fun m => containsGPUMarker m.source_component)).map
        (·.source_component))).length < 2 then none
    else
      if (gpuUtilizations metrics).length < 2 then none
      else
        let max_util := ((gpuUtilizations metrics).map (·.2)).foldl V.fmax (V.fin 0)
        let min_util := ((gpuUtilizations metrics).map (·.2)).foldl V.fmin (V.fin 100)
        let spread := V.sub max_util min_util
        if V.ge max_util (V.fin 80) && V.ge spread (V.fin 30) then
          some {
            bottleneck_type := .Gpu,
            severity := if V.ge spread (V.fin 50) then 75
              else if V.ge spread (V.fin 40) then 60 else 45,
            evidence := [{
              metric_type := .GpuUtilization,
              threshold := V.fin 80,
              actual_value := max_util,
              time_range_start := firstTs gpu_metrics,
              time_range_end := lastTs gpu_metrics }],
            summary := .multiGpuImbalanceSummary,
            details := .multiGpuImbalanceDetails spread max_util min_util }
        else if (gpuUtilizations metrics).all (fun p => V.ge p.2 (V.fin 90)) then
          some {
            bottleneck_type := .Gpu,
            severity := 85,
            evidence := [{
              metric_type := .GpuUtilization,
              threshold := V.fin 90,
              actual_value := vmean ((gpuUtilizations metrics).map (·.2)),
              time_range_start := firstTs gpu_metrics,
              time_range_end := lastTs gpu_metrics }],
            summary := .multiGpuSaturatedSummary,
            details := .multiGpuSaturatedDetails (gpuUtilizations metrics).length
              (vmean ((gpuUtilizations metrics).map (·.2))) }
        else none

/-- `Option::into_iter` style helper: the list of a fired finding. -/
def optList (o : Option Bottleneck) : List Bottleneck := o.elim [] (fun b => [b])

/-- `profile.threshold_overrides.as_ref().and_then(|t| t.cpu_high)`. -/
def ovCpu (p : WorkloadProfile) : Option V := p.threshold_overrides.bind (·.cpu_high)

/-- `profile.threshold_overrides.as_ref().and_then(|t| t.gpu_high)`. -/
def ovGpu (p : WorkloadProfile) : Option V := p.threshold_overrides.bind (·.gpu_high)

/-- `profile.threshold_overrides.as_ref().and_then(|t| t.ram_high)`. -/
def ovRam (p : WorkloadProfile) : Option V := p.threshold_overrides.bind (·.ram_high)

/-- `profile.threshold_overrides.as_ref().and_then(|t| t.vram_high)`. -/
def ovVram (p : WorkloadProfile) : Option V := p.threshold_overrides.bind (·.vram_high)

/-- `rules/mod.rs::detect_gaming_bottlenecks`: GPU, then CPU, then VRAM, with
profile overrides or the 90/85/90 defaults; `none` when nothing fired. -/
def detect_gaming_bottlenecks (metrics : List MetricSample) (p : WorkloadProfile) :
    Option (List Bottleneck) :=
  let bl := optList (detect_gpu_bottleneck metrics (some ((ovGpu p).getD (V.fin 90)))) ++
    optList (detect_cpu_bottleneck metrics (some ((ovCpu p).getD (V.fin 85)))) ++
    optList (detect_vram_bottleneck metrics (some ((ovVram p).getD (V.fin 90))))
  if bl.isEmpty then none else some bl

/-- `rules/mod.rs::detect_rendering_bottlenecks`: CPU, GPU, VRAM with the
higher 95/95/90 defaults. -/
def detect_rendering_bottlenecks (metrics : List MetricSample) (p : WorkloadProfile) :
    Option (List Bottleneck) :=
  let bl := optList (detect_cpu_bottleneck metrics (some ((ovCpu p).getD (V.fin 95)))) ++
    optList (detect_gpu_bottleneck metrics (some ((ovGpu p).getD (V.fin 95)))) ++
    optList (detect_vram_bottleneck metrics (some ((ovVram p).getD (V.fin 90))))
  if bl.isEmpty then none else some bl

/-- The GPU-starved finding of `detect_ai_ml_bottlenecks`: mean GPU
utilization below 50 with a (max − min) spread above 30. -/
def aiGpuStarved (metrics : List MetricSample) : List Bottleneck :=
  if (ofType .GpuUtilization metrics).isEmpty then []
  else
    let avg_gpu := gpuMean metrics
    let variance := V.sub ((valsOf .GpuUtilization metrics).foldl V.fmax V.ninf)
      ((valsOf .GpuUtilization metrics).foldl V.fmin V.inf)
    if V.lt avg_gpu (V.fin 50) && V.gt variance (V.fin 30) then
      [{ bottleneck_type := .Gpu,
         severity := V.toU8 (V.mul (V.div (V.sub (V.fin 50) avg_gpu) (V.fin 50)) (V.fin 100)),
         evidence := [{
           metric_type := .GpuUtilization,
           threshold := V.fin 50,
           actual_value := avg_gpu,
           time_range_start := firstTs (ofType .GpuUtilization metrics),
           time_range_end := lastTs (ofType .GpuUtilization metrics) }],
         summary := .gpuStarvedSummary avg_gpu variance,
         details := .gpuStarvedDetails avg_gpu variance }]
    else []

/-- `rules/mod.rs::detect_ai_ml_bottlenecks`: the GPU-starved rule plus the
VRAM rule with a default threshold of 95. -/
def detect_ai_ml_bottlenecks (metrics : List MetricSample) (p : WorkloadProfile) :
    Option (List Bottleneck) :=
  let bl := aiGpuStarved metrics ++
    optList (detect_vram_bottleneck metrics (some ((ovVram p).getD (V.fin 95))))
  if bl.isEmpty then none else some bl

/-- `rules/mod.rs::detect_productivity_bottlenecks`: RAM then storage; the
storage rule can panic. -/
def detect_productivity_bottlenecks (metrics : List MetricSample) (p : WorkloadProfile) :
    Except Unit (Option (List Bottleneck)) :=
  match detect_storage_bottleneck metrics with
  | .error e => .error e
  | .ok st =>
      let bl := optList (detect_ram_bottleneck metrics (some ((ovRam p).getD (V.fin 90)))) ++
        optList st
      .ok (if bl.isEmpty then none else some bl)

/-- The thermal slot of `analyze_bottlenecks`: the enhanced detector when it
fires, otherwise the legacy `detect_thermal_throttling` fallback. -/
def thermalFindings (recent : List MetricSample) : List Bottleneck :=
  match detect_enhanced_thermal_bottleneck recent with
  | some b => [b]
  | none => optList (detect_thermal_throttling recent)

/-- The always-on findings of `analyze_bottlenecks`: thermal, PCIe, memory
bus, multi-GPU, in push order. -/
def alwaysOnFindings (recent : List MetricSample) : List Bottleneck :=
  thermalFindings recent ++ optList (detect_pcie_saturation recent) ++
    optList (detect_memory_bus_saturation recent) ++
    optList (detect_multi_gpu_bottleneck recent)

/-- The in-window filter of `analyze_bottlenecks`
(`m.timestamp >= window_start && m.timestamp <= now`). -/
def recentMetrics (metrics : List MetricSample) (time_window_seconds : ℤ) (now : ℤ) :
    List MetricSample :=
  metrics.filter (fun m =>
    decide (now - time_window_seconds ≤ m.timestamp) && decide (m.timestamp ≤ now))

/-- `rules/mod.rs::analyze_bottlenecks` (with `Utc::now()` passed explicitly as
`now`).  `.error ()` models the `partial_cmp().unwrap()` panic reachable
through the storage rule of the Productivity / General branch. -/
def analyze_bottlenecks (metrics : List MetricSample) (time_window_seconds : ℤ) (now : ℤ)
    (profile : Option WorkloadProfile) : Except Unit BottleneckAnalysisResult :=
  let recent := recentMetrics metrics time_window_seconds now
  let base := alwaysOnFindings recent
  match profile with
  | some p =>
      match p.workload_type with
      | .Gaming =>
          .ok { bottlenecks := base ++ (detect_gaming_bottlenecks recent p).getD [],
                timestamp := now }
      | .Rendering =>
          .ok { bottlenecks := base ++ (detect_rendering_bottlenecks recent p).getD [],
                timestamp := now }
      | .AI =>
          .ok { bottlenecks := base ++ (detect_ai_ml_bottlenecks recent p).getD [],
                timestamp := now }
      | .Productivity =>
          match detect_productivity_bottlenecks recent p with
          | .error e => .error e
          | .ok r => .ok { bottlenecks := base ++ r.getD [], timestamp := now }
      | .General =>
          match detect_productivity_bottlenecks recent p with
          | .error e => .error e
          | .ok r => .ok { bottlenecks := base ++ r.getD [], timestamp := now }
  | none =>
      .ok { bottlenecks := base ++ optList (detect_cpu_bottleneck recent none) ++
              optList (detect_gpu_bottleneck recent none) ++
              optList (detect_ram_bottleneck recent none),
            timestamp := now }

/-- `core/domain.rs::Run` (Uuid modelled as a string; the `metrics_streams`
`HashMap` as an association list in a canonical iteration order). -/
structure Run where
  id : String
  name : String
  metrics_streams : List (String × List MetricSample)
  analysis_result : Option BottleneckAnalysisResult
  notes : Option String
deriving DecidableEq, Repr

/-- `comparison/mod.rs::MetricDelta`. -/
structure MetricDelta where
  metric_type : String
  run1_avg : V
  run2_avg : V
  delta : V
  delta_percent : V
  unit : String
deriving DecidableEq, Repr

/-- `comparison/mod.rs::BottleneckStatus`. -/
inductive BottleneckStatus where
  | New | Resolved | Improved | Worsened | Unchanged
deriving DecidableEq, Repr

/-- `comparison/mod.rs::BottleneckChange` (`severity_delta` is an `i16`, exact
here since severities are `u8`). -/
structure BottleneckChange where
  bottleneck_type : String
  run1_severity : Option ℕ
  run2_severity : Option ℕ
  severity_delta : ℤ
  status : BottleneckStatus
deriving DecidableEq, Repr

/-- The counts from which `generate_comparison_summary` renders its sentence:
metrics with `|percent delta| > 5`, and new / resolved / improved findings. -/
structure ComparisonSummaryData where
  significant : ℕ
  newCount : ℕ
  resolvedCount : ℕ
  improvedCount : ℕ
deriving DecidableEq, Repr

/-- `comparison/mod.rs::ComparisonResult` (the summary string is modelled by
the counts it is rendered from). -/
structure ComparisonResult where
  run1_id : String
  run2_id : String
  metric_deltas : List MetricDelta
  bottleneck_changes : List BottleneckChange
  summary : ComparisonSummaryData
deriving DecidableEq, Repr

/-- `comparison/mod.rs::flatten_metrics`: concatenate all per-source streams. -/
def flatten_metrics (streams : List (String × List MetricSample)) : List MetricSample :=
  (streams.map (·.2)).flatten

/-- The value list grouped under one `format!("{:?}", metric_type)` key
(`group_metrics_by_type`). -/
def groupVals (metrics : List MetricSample) (key : String) : List V :=
  (metrics.filter (fun m => decide (m.metric_type.debugStr = key))).map (·.value)

/-- One entry of `compare_runs`'s `metric_deltas` map: present iff the key has
samples in both runs; `delta = run2_avg - run1_avg`, percent relative to run 1
(0 if `run1_avg` compares equal to `0.0`). -/
def metricDeltaFor (m1 m2 : List MetricSample) (mt : MetricType) : Option MetricDelta :=
  let v1 := groupVals m1 mt.debugStr
  let v2 := groupVals m2 mt.debugStr
  if v1.isEmpty || v2.isEmpty then none
  else
    some {
      metric_type := mt.debugStr,
      run1_avg := vmean v1,
      run2_avg := vmean v2,
      delta := V.sub (vmean v2) (vmean v1),
      delta_percent :=
        if V.neb (vmean v1) (V.fin 0) then
          V.mul (V.div (V.sub (vmean v2) (vmean v1)) (vmean v1)) (V.fin 100)
        else V.fin 0,
      unit := ((m1.find? (fun m => decide (m.metric_type.debugStr = mt.debugStr))).map
        (·.unit)).getD "" }

/-- The `metric_deltas` map of `compare_runs`, enumerated canonically. -/
def metricDeltas (r1 r2 : Run) : List MetricDelta :=
  allMetricTypes.filterMap
    (metricDeltaFor (flatten_metrics r1.metrics_streams) (flatten_metrics r2.metrics_streams))

/-- `HashMap::from_iter` lookup semantics: the last inserted value wins. -/
def lookupLast (key : String) : List (String × ℕ) → Option ℕ
  | [] => none
  | kv :: rest =>
      match lookupLast key rest with
      | some v => some v
      | none => if kv.1 = key then some kv.2 else none

/-- The severity a run's latest analysis assigns to a finding-type key
(`bottlenecks1` / `bottlenecks2` of `compare_bottlenecks`). -/
def severityOf (r : Option BottleneckAnalysisResult) (key : String) : Option ℕ :=
  match r with
  | none => none
  | some res =>
      lookupLast key (res.bottlenecks.map (fun b => (b.bottleneck_type.debugStr, b.severity)))

/-- One `BottleneckChange` of `compare_bottlenecks` (skipped when the type is
in neither run). -/
def bottleneckChangeFor (r1 r2 : Option BottleneckAnalysisResult) (bt : BottleneckType) :
    Option BottleneckChange :=
  match severityOf r1 bt.debugStr, severityOf r2 bt.debugStr with
  | none, none => none
  | none, some s2 =>
      some { bottleneck_type := bt.debugStr, run1_severity := none, run2_severity := some s2,
             severity_delta := (s2 : ℤ), status := .New }
  | some s1, none =>
      some { bottleneck_type := bt.debugStr, run1_severity := some s1, run2_severity := none,
             severity_delta := -(s1 : ℤ), status := .Resolved }
  | some s1, some s2 =>
      some { bottleneck_type := bt.debugStr, run1_severity := some s1,
             run2_severity := some s2, severity_delta := (s2 : ℤ) - (s1 : ℤ),
             status := if s2 < s1 then .Improved else if s1 < s2 then .Worsened
               else .Unchanged }

/-- `comparison/mod.rs::compare_bottlenecks`, enumerated canonically over the
union of present finding types. -/
def compare_bottlenecks (r1 r2 : Option BottleneckAnalysisResult) : List BottleneckChange :=
  allBottleneckTypes.filterMap (bottleneckChangeFor r1 r2)

/-- `comparison/mod.rs::generate_comparison_summary`, as the counts the
sentence is rendered from. -/
def generate_comparison_summary (deltas : List MetricDelta)
    (changes : List BottleneckChange) : ComparisonSummaryData :=
  { significant := (deltas.filter (fun d => V.gt (V.vabs d.delta_percent) (V.fin 5))).length,
    newCount := (changes.filter (fun c => decide (c.status = .New))).length,
    resolvedCount := (changes.filter (fun c => decide (c.status = .Resolved))).length,
    improvedCount := (changes.filter (fun c => decide (c.status = .Improved))).length }

/-- `comparison/mod.rs::compare_runs`. -/
def compare_runs (run1 run2 : Run) : ComparisonResult :=
  { run1_id := run1.id,
    run2_id := run2.id,
    metric_deltas := metricDeltas run1 run2,
    bottleneck_changes := compare_bottlenecks run1.analysis_result run2.analysis_result,
    summary := generate_comparison_summary (metricDeltas run1 run2)
      (compare_bottlenecks run1.analysis_result run2.analysis_result) }

/-- `core/error.rs::MetricsError` — note there is no `AlreadyRunning`
constructor. -/
inductive MetricsError where
  | ProviderNotAvailable (msg : String)
  | SamplingFailed (msg : String)
  | CollectionFailed (msg : String)
  | InvalidValue (msg : String)
  | Io (msg : String)
  | Unknown (msg : String)
deriving DecidableEq, Repr

/-- Is this the catch-all `Unknown` variant (as opposed to a dedicated one)? -/
def MetricsError.isUnknownVariant : MetricsError → Bool
  | .Unknown _ => true
  | _ => false

/-- The mutable state of `metrics/collector/mod.rs::MetricsCollector` that the
`start` / `stop` contract touches: the running flag, the ring buffer, and the
immutable configuration. -/
structure CollectorState where
  running : Bool
  buffer : List MetricSample
  sampling_interval_ms : ℕ
  buffer_size : ℕ
deriving DecidableEq, Repr

/-- One buffer append of the sampling tick:
`push_back(sample); if len > buffer_size { pop_front() }`. -/
def pushEvict (buffer_size : ℕ) (buf : List MetricSample) (s : MetricSample) :
    List MetricSample :=
  if buffer_size < (buf ++ [s]).length then (buf ++ [s]).tail else buf ++ [s]

/-- The per-tick buffer update: every sample of the batch appended in order
with oldest-eviction. -/
def appendBatch (buffer_size : ℕ) (buf : List MetricSample) (batch : List MetricSample) :
    List MetricSample :=
  batch.foldl (pushEvict buffer_size) buf

/-- `MetricsCollector::start`: the guard and its effects — the resulting
`Result`, the state after the call, and whether a sampling task was spawned. -/
def startCollector (s : CollectorState) :
    Except MetricsError Unit × CollectorState × Bool :=
  if s.running then (.error (.Unknown "Collector already running"), s, false)
  else (.ok (), { s with running := true }, true)

/-- `MetricsCollector::stop`: clears the running flag (the loop observes it at
the next tick). -/
def stopCollector (s : CollectorState) : CollectorState := { s with running := false }

/-- Does a details template carry a predicted time-to-throttle?  Only the
predictive-thermal template interpolates one. -/
def TextT.mentionsPredictedTime : TextT → Bool
  | .predictiveThermalDetails _ _ _ => true
  | _ => false

/-- Does a finding originate from the legacy `detect_thermal_throttling` form?
Its summary template is used by no other detector. -/
def Bottleneck.isLegacyThermalForm (b : Bottleneck) : Bool :=
  match b.summary with
  | .legacyThermalSummary _ _ => true
  | _ => false

/-- Every sample value stored in the run is a finite double. -/
def allFiniteRun (r : Run) : Prop :=
  ∀ m ∈ flatten_metrics r.metrics_streams, ∃ q, m.value = V.fin q

/-- Sample builder for the concrete instances below. -/
def sampleAt (t : ℤ) (mt : MetricType) (v : V) : MetricSample :=
  { timestamp := t, metric_type := mt, value := v, unit := "", source_component := "X" }

/-- A Productivity workload profile with no overrides. -/
def prodProfile : WorkloadProfile :=
  { id := "p", name := "office", workload_type := .Productivity, parameters := [],
    threshold_overrides := none }

/-- A Gaming workload profile overriding the processor threshold down to 50. -/
def gamingLowCpuProfile : WorkloadProfile :=
  { id := "g", name := "game", workload_type := .Gaming, parameters := [],
    threshold_overrides := some
      { cpu_high := some (V.fin 50), gpu_high := none, ram_high := none, vram_high := none } }

/-- Two in-window storage queue-depth samples, the second one a NaN. -/
def nanQueueInput : List MetricSample :=
  [sampleAt 0 .StorageQueueDepth (V.fin 5), sampleAt 1 .StorageQueueDepth V.nan]

/-- A single video-memory sample far below every threshold. -/
def vramLowInput : List MetricSample := [sampleAt 0 .GpuVramUsage (V.fin 50)]

/-- A single processor sample at 60% utilization. -/
def cpuSixtyInput : List MetricSample := [sampleAt 0 .CpuUtilization (V.fin 60)]

/-- Processor pegged at 95 with graphics at 30: the generic processor-bound
example of the specification. -/
def cpuHotGpuColdInput : List MetricSample :=
  [sampleAt 0 .CpuUtilization (V.fin 95), sampleAt 0 .GpuUtilization (V.fin 30)]

/-- Two temperature samples: an early hot one (95) and a cooled latest
one (60). -/
def coolingTempInput : List MetricSample :=
  [sampleAt 0 .Temperature (V.fin 95), sampleAt 60 .Temperature (V.fin 60)]

/-- Two temperature samples rising from 70 to 90 over a minute. -/
def twoTempInput : List MetricSample :=
  [sampleAt 0 .Temperature (V.fin 70), sampleAt 60 .Temperature (V.fin 90)]

/-- Temperatures rising linearly from 70 to 85 over 10 samples spanning 10
minutes (values `70 + k·5/3` at roughly one-minute spacing, last at 600 s). -/
def tempRampInput : List MetricSample :=
  [sampleAt 0 .Temperature (V.fin 70),
   sampleAt 60 .Temperature (V.fin (215/3)),
   sampleAt 120 .Temperature (V.fin (220/3)),
   sampleAt 180 .Temperature (V.fin 75),
   sampleAt 240 .Temperature (V.fin (230/3)),
   sampleAt 300 .Temperature (V.fin (235/3)),
   sampleAt 360 .Temperature (V.fin 80),
   sampleAt 420 .Temperature (V.fin (245/3)),
   sampleAt 480 .Temperature (V.fin (250/3)),
   sampleAt 600 .Temperature (V.fin 85)]

/-- A run holding a single NaN-valued processor sample. -/
def nanRun : Run :=
  { id := "r1", name := "run", metrics_streams := [("cpu", [sampleAt 0 .CpuUtilization V.nan])],
    analysis_result := none, notes := none }

/-- A run with finite samples and a finding in its analysis result. -/
def finiteRun : Run :=
  { id := "r2", name := "run", metrics_streams :=
      [("cpu", [sampleAt 0 .CpuUtilization (V.fin 80), sampleAt 1 .CpuUtilization (V.fin 90)])],
    analysis_result := some
      { bottlenecks := [{
          bottleneck_type := .Cpu, severity := 50, evidence := [],
          summary := .cpuSummary (V.fin 85) (V.fin 85),
          details := .cpuDetails (V.fin 85) (V.fin 0) }],
        timestamp := 0 },
    notes := none }

/-- A collector that is currently running. -/
def runningState : CollectorState :=
  { running := true, buffer := [], sampling_interval_ms := 1000, buffer_size := 600 }

/-! ## Helper lemmas -/

theorem isEmpty_eq_false_iff {α : Type} (l : List α) : l.isEmpty = false ↔ l ≠ [] := by
  cases l <;> simp

theorem pushEvict_length_le (cap : ℕ) (buf : List MetricSample) (s : MetricSample)
    (h : buf.length ≤ cap) : (pushEvict cap buf s).length ≤ cap := by
  unfold pushEvict
  split
  · simpa using h
  · omega

theorem appendBatch_length_le (cap : ℕ) (batch buf : List MetricSample)
    (h : buf.length ≤ cap) : (appendBatch cap buf batch).length ≤ cap := by
  induction batch generalizing buf with
  | nil => exact h
  | cons x xs ih => exact ih (pushEvict cap buf x) (pushEvict_length_le cap buf x h)

/-! ## Claims -/

/-- C1 — code bug.  The spec claims `analyze` is total for every well-typed
input, including NaN storage queue-depth samples.  The code panics there: the
`max_by` comparator of `detect_storage_bottleneck` unwraps `partial_cmp`,
which is `None` when a compared queue-depth pair contains a NaN, so a
Productivity/General analysis with ≥ 2 queue-depth samples, one NaN, panics
(first conjunct).  The rest of the claim is real: the profile-free path never
errors, and an empty sample list yields an empty finding list for every
window and profile. -/
theorem analyze_nan_queue_panics :
    analyze_bottlenecks nanQueueInput 30 10 (some prodProfile) = .error () ∧
    (∀ metrics w now, ∃ r, analyze_bottlenecks metrics w now none = .ok r) ∧
    (∀ w now p, analyze_bottlenecks [] w now p =
      .ok { bottlenecks := [], timestamp := now }) := by
  refine ⟨rfl, fun metrics w now => ⟨_, rfl⟩, fun w now p => ?_⟩
  match p with
  | none => rfl
  | some ⟨id, name, wt, params, ov⟩ => cases wt <;> rfl

/-- C2 — counterexample.  A single in-window video-memory sample of 50 MB,
far below the threshold 90, still fires the detector, and the severity is the
constant 70, not the (non-exceeding) mean. -/
theorem vram_counterexample :
    ((detect_vram_bottleneck vramLowInput (some (V.fin 90))).map (·.severity) = some 70) ∧
    V.gt (vmean (valsOf .GpuVramUsage vramLowInput)) (V.fin 90) = false := by
  refine ⟨by with_unfolding_all rfl, by with_unfolding_all rfl⟩

/-- C2 — amended.  The video-memory detector is a placeholder: it fires iff
the window has a video-memory sample and both the running max and the mean of
the values are positive — the threshold (override, else 90) is never compared
— and a fired finding always has the constant severity 70, the threshold
appearing only in the evidence. -/
theorem detect_vram_characterization (metrics : List MetricSample) (o : Option V) :
    ((detect_vram_bottleneck metrics o).isSome = true ↔
      (ofType .GpuVramUsage metrics ≠ [] ∧
       V.gt ((valsOf .GpuVramUsage metrics).foldl V.fmax (V.fin 0)) (V.fin 0) = true ∧
       V.gt (vmean (valsOf .GpuVramUsage metrics)) (V.fin 0) = true)) ∧
    (∀ b, detect_vram_bottleneck metrics o = some b →
      b.severity = 70 ∧ b.evidence.map (·.threshold) = [o.getD (V.fin 90)]) := by
  by_cases hL : ofType .GpuVramUsage metrics = []
  · constructor
    · simp [detect_vram_bottleneck, hL]
    · intro b hb
      simp [detect_vram_bottleneck, hL] at hb
  · have hE : (ofType .GpuVramUsage metrics).isEmpty = false := (isEmpty_eq_false_iff _).mpr hL
    by_cases hc : (V.gt ((valsOf .GpuVramUsage metrics).foldl V.fmax (V.fin 0)) (V.fin 0) &&
        V.gt (vmean (valsOf .GpuVramUsage metrics)) (V.fin 0)) = true
    · rw [Bool.and_eq_true] at hc
      constructor
      · simp [detect_vram_bottleneck, hE, hc.1, hc.2, hL]
      · intro b hb
        simp [detect_vram_bottleneck, hE, hc.1, hc.2] at hb
        subst hb
        exact ⟨rfl, rfl⟩
    · rw [Bool.and_eq_true] at hc
      push_neg at hc
      constructor
      · by_cases h1 : V.gt ((valsOf .GpuVramUsage metrics).foldl V.fmax (V.fin 0)) (V.fin 0) = true
        · simp [detect_vram_bottleneck, hE, h1, hc h1]
        · simp [detect_vram_bottleneck, hE, h1]
      · intro b hb
        by_cases h1 : V.gt ((valsOf .GpuVramUsage metrics).foldl V.fmax (V.fin 0)) (V.fin 0) = true
        · simp [detect_vram_bottleneck, hE, h1, hc h1] at hb
        · simp [detect_vram_bottleneck, hE, h1] at hb

/-- C2 — witness for the amended characterization, at the concrete low-usage
input. -/
theorem detect_vram_characterization_witness :
    (detect_vram_bottleneck vramLowInput (some (V.fin 90))).isSome = true :=
  (detect_vram_characterization vramLowInput (some (V.fin 90))).1.mpr
    ⟨by decide, by with_unfolding_all decide, by with_unfolding_all decide⟩

/-- C3 — confirmed.  Whenever the window has a processor sample, the
processor-bound finding fires iff the mean processor utilization exceeds the
effective threshold (override, else 85) and the `avg_gpu` of the same window
(mean graphics utilization, 0 with no graphics samples) is below 70; and
symmetrically for graphics-bound with threshold (override, else 90) and the
complementary processor cutoff 80. -/
theorem cpu_gpu_bound_iff (metrics : List MetricSample) (oc og : Option V) :
    (ofType .CpuUtilization metrics ≠ [] →
      ((detect_cpu_bottleneck metrics oc).isSome = true ↔
        (V.gt (cpuMean metrics) (oc.getD (V.fin 85)) = true ∧
         V.lt (gpuMeanOrZero metrics) (V.fin 70) = true))) ∧
    (ofType .GpuUtilization metrics ≠ [] →
      ((detect_gpu_bottleneck metrics og).isSome = true ↔
        (V.gt (gpuMean metrics) (og.getD (V.fin 90)) = true ∧
         V.lt (cpuMeanOrZero metrics) (V.fin 80) = true))) := by
  constructor
  · intro hL
    have hE : (ofType .CpuUtilization metrics).isEmpty = false := (isEmpty_eq_false_iff _).mpr hL
    by_cases h1 : V.gt (cpuMean metrics) (oc.getD (V.fin 85)) = true
    · by_cases h2 : V.lt (gpuMeanOrZero metrics) (V.fin 70) = true
      · simp [detect_cpu_bottleneck, hE, h1, h2]
      · simp [detect_cpu_bottleneck, hE, h1, h2]
    · simp [detect_cpu_bottleneck, hE, h1]
  · intro hL
    have hE : (ofType .GpuUtilization metrics).isEmpty = false := (isEmpty_eq_false_iff _).mpr hL
    by_cases h1 : V.gt (gpuMean metrics) (og.getD (V.fin 90)) = true
    · by_cases h2 : V.lt (cpuMeanOrZero metrics) (V.fin 80) = true
      · simp [detect_gpu_bottleneck, hE, h1, h2]
      · simp [detect_gpu_bottleneck, hE, h1, h2]
    · simp [detect_gpu_bottleneck, hE, h1]

/-- C3 — witness: processor pegged at 95 with graphics at 30 fires the
processor-bound rule under the global default threshold. -/
theorem cpu_gpu_bound_iff_witness :
    (detect_cpu_bottleneck cpuHotGpuColdInput none).isSome = true :=
  ((cpu_gpu_bound_iff cpuHotGpuColdInput none none).1 (by decide)).mpr
    ⟨by with_unfolding_all decide, by with_unfolding_all decide⟩

/-- C4 — counterexample.  With the processor threshold overridden down to 50,
a single 60% processor sample (no graphics samples) fires the processor rule,
yet the reported severity is 0, not the observed mean 60: the processor rule
computes its severity against the global default 85, not the firing
threshold. -/
theorem cpu_severity_counterexample :
    ((detect_cpu_bottleneck cpuSixtyInput (some (V.fin 50))).map (·.severity) = some 0) ∧
    cpuMean cpuSixtyInput = V.fin 60 ∧
    V.gt (cpuMean cpuSixtyInput) (V.fin 50) = true ∧ (0 : ℕ) ≠ 60 := by
  refine ⟨by with_unfolding_all rfl, by with_unfolding_all rfl,
    by with_unfolding_all rfl, by decide⟩

/-- C4 — amended.  `calculate_severity(m, t)` is 0 for `m ≤ t`, `⌊m⌋` for
`t < m ≤ 100` and 100 for `m > 100` (for finite `0 ≤ t < 100`); the graphics
rule reports `calculate_severity(mean, effective threshold)`, and the memory
rule does too when no swap usage is present (with swap usage its severity is
instead the swap floor `max(toU8(min(mean, 100)), 80)`); but the processor
rule always reports `calculate_severity(mean, 85)` irrespective of any
override — so with an override below 85 a firing processor finding can carry
severity 0. -/
theorem severity_characterization :
    (∀ t m : ℚ, 0 ≤ t → t < 100 →
      (m ≤ t → calculate_severity (V.fin m) (V.fin t) = 0) ∧
      (t < m → m ≤ 100 → calculate_severity (V.fin m) (V.fin t) = m.floor.toNat) ∧
      (100 < m → calculate_severity (V.fin m) (V.fin t) = 100)) ∧
    (∀ metrics o b, detect_gpu_bottleneck metrics o = some b →
      b.severity = calculate_severity (gpuMean metrics) (o.getD (V.fin 90))) ∧
    (∀ metrics o b, detect_ram_bottleneck metrics o = some b →
      (hasSwapUsage metrics = false →
        b.severity = calculate_severity (vmean (valsOf .MemoryUsage metrics))
          (o.getD (V.fin 90))) ∧
      (hasSwapUsage metrics = true →
        b.severity =
          max (V.toU8 (V.fmin (vmean (valsOf .MemoryUsage metrics)) (V.fin 100))) 80)) ∧
    (∀ metrics o b, detect_cpu_bottleneck metrics o = some b →
      b.severity = calculate_severity (cpuMean metrics) (V.fin 85)) := by
  refine ⟨?_, ?_, ?_, ?_⟩
  · intro t m ht ht100
    have hdpos : (0:ℚ) < 100 - t := by linarith
    have e1 : V.sub (V.fin m) (V.fin t) = V.fin (m - t) := by
      simp [V.sub, V.neg, V.add, sub_eq_add_neg]
    have e2 : V.sub (V.fin 100) (V.fin t) = V.fin (100 - t) := by
      simp [V.sub, V.neg, V.add, sub_eq_add_neg]
    have e3 : V.div (V.fin (m - t)) (V.fin (100 - t)) = V.fin ((m - t)/(100 - t)) := by
      simp [V.div, hdpos.ne']
    refine ⟨?_, ?_, ?_⟩
    · intro hmt
      unfold calculate_severity
      simp [V.le, hmt]
    · intro h1 h2
      have hle : V.le (V.fin m) (V.fin t) = false := by simp [V.le, not_le, h1]
      have hr1 : (m - t)/(100 - t) ≤ 1 := by
        rw [div_le_one hdpos]; linarith
      have e4 : V.fmin (V.fin ((m - t)/(100 - t))) (V.fin 1) =
          V.fin ((m - t)/(100 - t)) := by
        simp [V.fmin, V.le, hr1]
      have e5 : V.mul (V.fin ((m - t)/(100 - t))) (V.fin (100 - t)) = V.fin (m - t) := by
        simp only [V.mul, V.fin.injEq]
        field_simp
      have e6 : V.add (V.fin t) (V.fin (m - t)) = V.fin m := by
        simp only [V.add, V.fin.injEq]; ring
      have hm0 : ¬(m ≤ 0) := not_le.mpr (lt_of_le_of_lt ht h1)
      have hm255 : ¬((255:ℚ) ≤ m) := by linarith
      unfold calculate_severity
      rw [hle]
      simp only [Bool.false_eq_true, if_false, e1, e2, e3, e4, e5, e6]
      simp [V.toU8, hm0, hm255]
    · intro h1
      have hle : V.le (V.fin m) (V.fin t) = false := by
        simp [V.le, not_le]; linarith
      have hr1 : ¬((m - t)/(100 - t) ≤ 1) := by
        rw [not_le, lt_div_iff₀ hdpos]; linarith
      have e4 : V.fmin (V.fin ((m - t)/(100 - t))) (V.fin 1) = V.fin 1 := by
        simp [V.fmin, V.le, hr1]
      have e5 : V.mul (V.fin 1) (V.fin (100 - t)) = V.fin (100 - t) := by
        simp [V.mul]
      have e6 : V.add (V.fin t) (V.fin (100 - t)) = V.fin 100 := by
        simp only [V.add, V.fin.injEq]; ring
      unfold calculate_severity
      rw [hle]
      simp only [Bool.false_eq_true, if_false, e1, e2, e3, e4, e5, e6]
      simp only [V.toU8]
      norm_num
      with_unfolding_all decide
  · intro metrics o b hb
    by_cases hE : (ofType .GpuUtilization metrics).isEmpty = true
    · simp [detect_gpu_bottleneck, hE] at hb
    · rw [Bool.not_eq_true] at hE
      by_cases h1 : V.gt (gpuMean metrics) (o.getD (V.fin 90)) = true
      · by_cases h2 : V.lt (cpuMeanOrZero metrics) (V.fin 80) = true
        · simp [detect_gpu_bottleneck, hE, h1, h2] at hb
          rw [← hb]
        · simp [detect_gpu_bottleneck, hE, h1, h2] at hb
      · simp [detect_gpu_bottleneck, hE, h1] at hb
  · intro metrics o b hb
    unfold detect_ram_bottleneck at hb
    split at hb
    · exact absurd hb (by simp)
    · split at hb
      · injection hb with hb
        subst hb
        constructor
        · intro hsw
          simp [hsw]
        · intro hsw
          simp [hsw]
      · exact absurd hb (by simp)
  · intro metrics o b hb
    by_cases hE : (ofType .CpuUtilization metrics).isEmpty = true
    · simp [detect_cpu_bottleneck, hE] at hb
    · rw [Bool.not_eq_true] at hE
      by_cases h1 : V.gt (cpuMean metrics) (o.getD (V.fin 85)) = true
      · by_cases h2 : V.lt (gpuMeanOrZero metrics) (V.fin 70) = true
        · simp [detect_cpu_bottleneck, hE, h1, h2] at hb
          rw [← hb]
        · simp [detect_cpu_bottleneck, hE, h1, h2] at hb
      · simp [detect_cpu_bottleneck, hE, h1] at hb

/-- C4 — witness: at `t = 85`, `m = 90` the severity is `⌊90⌋ = 90`. -/
theorem severity_characterization_witness :
    calculate_severity (V.fin 90) (V.fin 85) = (90 : ℚ).floor.toNat :=
  ((severity_characterization.1 85 90 (by norm_num) (by norm_num)).2.1
    (by norm_num) (by norm_num))

theorem mem_optList {f : Bottleneck} {o : Option Bottleneck} (h : f ∈ optList o) :
    o = some f := by
  cases o with
  | none => simp [optList] at h
  | some b => simp [optList] at h; rw [h]

theorem notLegacy_cpu {metrics o b} (h : detect_cpu_bottleneck metrics o = some b) :
    b.isLegacyThermalForm = false := by
  unfold detect_cpu_bottleneck at h
  split at h
  · exact absurd h (by simp)
  · split at h
    · injection h with h; subst h; rfl
    · exact absurd h (by simp)

theorem notLegacy_gpu {metrics o b} (h : detect_gpu_bottleneck metrics o = some b) :
    b.isLegacyThermalForm = false := by
  unfold detect_gpu_bottleneck at h
  split at h
  · exact absurd h (by simp)
  · split at h
    · injection h with h; subst h; rfl
    · exact absurd h (by simp)

theorem notLegacy_vram {metrics o b} (h : detect_vram_bottleneck metrics o = some b) :
    b.isLegacyThermalForm = false := by
  unfold detect_vram_bottleneck at h
  split at h
  · exact absurd h (by simp)
  · split at h
    · injection h with h; subst h; rfl
    · exact absurd h (by simp)

theorem notLegacy_ram {metrics o b} (h : detect_ram_bottleneck metrics o = some b) :
    b.isLegacyThermalForm = false := by
  unfold detect_ram_bottleneck at h
  split at h
  · exact absurd h (by simp)
  · split at h
    · injection h with h; subst h; rfl
    · exact absurd h (by simp)

theorem notLegacy_storage {metrics b} (h : detect_storage_bottleneck metrics = .ok (some b)) :
    b.isLegacyThermalForm = false := by
  unfold detect_storage_bottleneck at h
  split at h
  · exact absurd h (by simp)
  · exact absurd h (by simp)
  · split at h
    · injection h with h; injection h with h; subst h; rfl
    · exact absurd h (by simp)

theorem notLegacy_pcie {metrics b} (h : detect_pcie_saturation metrics = some b) :
    b.isLegacyThermalForm = false := by
  unfold detect_pcie_saturation at h
  dsimp only [] at h
  split at h
  · exact absurd h (by simp)
  · split at h
    · injection h with h; subst h; rfl
    · exact absurd h (by simp)

theorem notLegacy_membus {metrics b} (h : detect_memory_bus_saturation metrics = some b) :
    b.isLegacyThermalForm = false := by
  unfold detect_memory_bus_saturation at h
  dsimp only [] at h
  split at h
  · exact absurd h (by simp)
  · split at h
    · injection h with h; subst h; rfl
    · exact absurd h (by simp)

theorem notLegacy_multigpu {metrics b} (h : detect_multi_gpu_bottleneck metrics = some b) :
    b.isLegacyThermalForm = false := by
  unfold detect_multi_gpu_bottleneck at h
  dsimp only [] at h
  split at h
  · exact absurd h (by simp)
  · split at h
    · exact absurd h (by simp)
    · split at h
      · exact absurd h (by simp)
      · split at h
        · injection h with h; subst h; rfl
        · split at h
          · injection h with h; subst h; rfl
          · exact absurd h (by simp)

theorem notLegacy_enhanced {metrics b} (h : detect_enhanced_thermal_bottleneck metrics = some b) :
    b.isLegacyThermalForm = false := by
  unfold detect_enhanced_thermal_bottleneck at h
  split at h
  · exact absurd h (by simp)
  · split at h
    · injection h with h; subst h; rfl
    · split at h
      · injection h with h; subst h; rfl
      · split at h
        · injection h with h; subst h; rfl
        · exact absurd h (by simp)

theorem notLegacy_aiStarved {metrics f} (h : f ∈ aiGpuStarved metrics) :
    f.isLegacyThermalForm = false := by
  unfold aiGpuStarved at h
  dsimp only [] at h
  split at h
  · simp at h
  · split at h
    · simp at h; subst h; rfl
    · simp at h

theorem notLegacy_gaming {metrics p f}
    (h : f ∈ (detect_gaming_bottlenecks metrics p).getD []) :
    f.isLegacyThermalForm = false := by
  unfold detect_gaming_bottlenecks at h
  dsimp only [] at h
  split at h
  · simp at h
  · simp only [Option.getD_some, List.mem_append] at h
    rcases h with (h | h) | h
    · exact notLegacy_gpu (mem_optList h)
    · exact notLegacy_cpu (mem_optList h)
    · exact notLegacy_vram (mem_optList h)

theorem notLegacy_rendering {metrics p f}
    (h : f ∈ (detect_rendering_bottlenecks metrics p).getD []) :
    f.isLegacyThermalForm = false := by
  unfold detect_rendering_bottlenecks at h
  dsimp only [] at h
  split at h
  · simp at h
  · simp only [Option.getD_some, List.mem_append] at h
    rcases h with (h | h) | h
    · exact notLegacy_cpu (mem_optList h)
    · exact notLegacy_gpu (mem_optList h)
    · exact notLegacy_vram (mem_optList h)

theorem notLegacy_ai {metrics p f}
    (h : f ∈ (detect_ai_ml_bottlenecks metrics p).getD []) :
    f.isLegacyThermalForm = false := by
  unfold detect_ai_ml_bottlenecks at h
  dsimp only [] at h
  split at h
  · simp at h
  · simp only [Option.getD_some, List.mem_append] at h
    rcases h with h | h
    · exact notLegacy_aiStarved h
    · exact notLegacy_vram (mem_optList h)

theorem notLegacy_productivity {metrics p r f}
    (hr : detect_productivity_bottlenecks metrics p = .ok r) (h : f ∈ r.getD []) :
    f.isLegacyThermalForm = false := by
  unfold detect_productivity_bottlenecks at hr
  split at hr
  · exact absurd hr (by simp)
  · rename_i st hst
    injection hr with hr
    subst hr
    split at h
    · simp at h
    · simp only [Option.getD_some, List.mem_append] at h
      rcases h with h | h
      · exact notLegacy_ram (mem_optList h)
      · have hsf : st = some f := mem_optList h
        subst hsf
        exact notLegacy_storage hst

theorem notLegacy_alwaysOn {recent : List MetricSample} {f : Bottleneck}
    (hsome : (detect_enhanced_thermal_bottleneck recent).isSome = true)
    (h : f ∈ alwaysOnFindings recent) : f.isLegacyThermalForm = false := by
  obtain ⟨b, hb⟩ := Option.isSome_iff_exists.mp hsome
  unfold alwaysOnFindings thermalFindings at h
  rw [hb] at h
  simp only [List.mem_append] at h
  rcases h with ((h | h) | h) | h
  · simp at h; subst h; exact notLegacy_enhanced hb
  · exact notLegacy_pcie (mem_optList h)
  · exact notLegacy_membus (mem_optList h)
  · exact notLegacy_multigpu (mem_optList h)

/-- C5 — counterexample.  Two in-window temperature samples (95 °C early,
60 °C latest): the enhanced detector runs (≥ 2 samples) but finds nothing
(latest below every enhanced threshold), so the engine falls back to the
legacy form, whose max-based 90/95 rule fires — the analysis output contains
a legacy-form finding despite 2 temperature samples in the window. -/
theorem legacy_thermal_counterexample :
    (ofType .Temperature (recentMetrics coolingTempInput 601 600)).length = 2 ∧
    ((analyze_bottlenecks coolingTempInput 601 600 none).map
      (fun r => r.bottlenecks.map (·.isLegacyThermalForm))) = .ok [true] := by
  refine ⟨by with_unfolding_all rfl, by with_unfolding_all rfl⟩

/-- C5 — amended.  The legacy fallback is invoked exactly when the enhanced
detector returns nothing — whether from insufficient samples or from none of
its conditions holding — not only on insufficient samples; and whenever the
enhanced detector does fire, no finding of the analysis output is of the
legacy form. -/
theorem legacy_thermal_only_on_enhanced_miss (metrics : List MetricSample) (w now : ℤ)
    (p : Option WorkloadProfile) (res : BottleneckAnalysisResult) :
    (detect_enhanced_thermal_bottleneck (recentMetrics metrics w now) = none →
      thermalFindings (recentMetrics metrics w now) =
        optList (detect_thermal_throttling (recentMetrics metrics w now))) ∧
    (∀ b, detect_enhanced_thermal_bottleneck (recentMetrics metrics w now) = some b →
      thermalFindings (recentMetrics metrics w now) = [b]) ∧
    (analyze_bottlenecks metrics w now p = .ok res →
      (detect_enhanced_thermal_bottleneck (recentMetrics metrics w now)).isSome = true →
      ∀ f ∈ res.bottlenecks, f.isLegacyThermalForm = false) := by
  refine ⟨?_, ?_, ?_⟩
  · intro h; unfold thermalFindings; rw [h]
  · intro b h; unfold thermalFindings; rw [h]
  · intro hok hsome f hf
    match p with
    | none =>
        simp only [analyze_bottlenecks] at hok
        injection hok with hok
        subst hok
        simp only [List.mem_append] at hf
        rcases hf with ((hf | hf) | hf) | hf
        · exact notLegacy_alwaysOn hsome hf
        · exact notLegacy_cpu (mem_optList hf)
        · exact notLegacy_gpu (mem_optList hf)
        · exact notLegacy_ram (mem_optList hf)
    | some ⟨pid, pname, wt, pparams, pov⟩ =>
        cases wt with
        | Gaming =>
            simp only [analyze_bottlenecks] at hok
            injection hok with hok
            subst hok
            simp only [List.mem_append] at hf
            rcases hf with hf | hf
            · exact notLegacy_alwaysOn hsome hf
            · exact notLegacy_gaming hf
        | Rendering =>
            simp only [analyze_bottlenecks] at hok
            injection hok with hok
            subst hok
            simp only [List.mem_append] at hf
            rcases hf with hf | hf
            · exact notLegacy_alwaysOn hsome hf
            · exact notLegacy_rendering hf
        | AI =>
            simp only [analyze_bottlenecks] at hok
            injection hok with hok
            subst hok
            simp only [List.mem_append] at hf
            rcases hf with hf | hf
            · exact notLegacy_alwaysOn hsome hf
            · exact notLegacy_ai hf
        | Productivity =>
            simp only [analyze_bottlenecks] at hok
            split at hok
            · exact absurd hok (by simp)
            · rename_i r hr
              injection hok with hok
              subst hok
              simp only [List.mem_append] at hf
              rcases hf with hf | hf
              · exact notLegacy_alwaysOn hsome hf
              · exact notLegacy_productivity hr hf
        | General =>
            simp only [analyze_bottlenecks] at hok
            split at hok
            · exact absurd hok (by simp)
            · rename_i r hr
              injection hok with hok
              subst hok
              simp only [List.mem_append] at hf
              rcases hf with hf | hf
              · exact notLegacy_alwaysOn hsome hf
              · exact notLegacy_productivity hr hf

/-- C5 — witness: on the cooling two-sample window the enhanced form finds
nothing and the thermal slot is exactly the legacy fallback result. -/
theorem legacy_thermal_only_on_enhanced_miss_witness :
    thermalFindings (recentMetrics coolingTempInput 601 600) =
      optList (detect_thermal_throttling (recentMetrics coolingTempInput 601 600)) :=
  (legacy_thermal_only_on_enhanced_miss coolingTempInput 601 600 none
    { bottlenecks := [], timestamp := 0 }).1 (by with_unfolding_all rfl)

/-- C6 — counterexample.  For temperatures rising linearly from 70 to 85 over
10 samples spanning 10 minutes, the latest sample is 85, so the CRITICAL
branch fires first: the one thermal finding has severity 75 (not one of
40/55/70) and its details carry no predicted time-to-throttle. -/
theorem thermal_ramp_counterexample :
    ((analyze_bottlenecks tempRampInput 601 600 none).map
      (fun r => r.bottlenecks.map (fun b => (b.severity, b.details.mentionsPredictedTime)))) =
      .ok [(75, false)] ∧
    ¬((75 : ℕ) = 40 ∨ (75 : ℕ) = 55 ∨ (75 : ℕ) = 70) := by
  refine ⟨by with_unfolding_all rfl, by decide⟩

/-- C6 — amended.  On that input `analyze` returns exactly one finding: the
critical-form thermal finding (severity 75, threshold 85 in evidence, no
predicted time-to-throttle), because `latest ≥ 85` is tested before the
predictive branch and the measured rate (1.5 °C/min) is below the 2.0
predictive threshold anyway. -/
theorem thermal_ramp_output :
    analyze_bottlenecks tempRampInput 601 600 none = .ok {
      bottlenecks := [{
        bottleneck_type := .Thermal, severity := 75,
        evidence := [{
          metric_type := .Temperature,
          threshold := V.fin 85,
          actual_value := V.fin 85,
          time_range_start := 0,
          time_range_end := 600 }],
        summary := .criticalThermalSummary,
        details := .criticalThermalDetails (V.fin 85) (V.fin 85) }],
      timestamp := 600 } := by with_unfolding_all rfl

theorem vlt_false_of_ge {v : V} {b : ℚ} (h : V.ge v (V.fin b) = true) :
    V.lt v (V.fin b) = false := by
  cases v with
  | nan => simp [V.ge, V.le] at h
  | inf => simp [V.lt]
  | ninf => simp [V.ge, V.le] at h
  | fin q =>
      simp [V.ge, V.le] at h
      simp [V.lt, not_lt, h]

theorem vlt_of_ge_not_ge {v : V} {a b : ℚ} (h1 : V.ge v (V.fin a) = true)
    (h2 : V.ge v (V.fin b) = false) : V.lt v (V.fin b) = true := by
  cases v with
  | nan => simp [V.ge, V.le] at h1
  | inf => simp [V.ge, V.le] at h2
  | ninf => simp [V.ge, V.le] at h1
  | fin q =>
      simp [V.ge, V.le] at h2
      simp [V.lt, h2]

theorem vge_mono {v : V} {a b : ℚ} (hab : a ≤ b) (h : V.ge v (V.fin b) = true) :
    V.ge v (V.fin a) = true := by
  cases v with
  | nan => simp [V.ge, V.le] at h
  | inf => simp [V.ge, V.le]
  | ninf => simp [V.ge, V.le] at h
  | fin q =>
      simp [V.ge, V.le] at h ⊢
      linarith

/-- C7 — confirmed.  Given at least two in-window temperature samples, the
enhanced detector fires the critical finding iff the latest (time-sorted)
temperature is ≥ 85; the predictive finding iff the latest is in [70, 85) and
the measured rise rate is ≥ 2.0 °C/min; the flat-50 warning iff the latest is
in [75, 85) and the predictive condition fails; and returns nothing iff none
of the three conditions holds. -/
theorem enhanced_thermal_iff (metrics : List MetricSample)
    (h2 : 2 ≤ (ofType .Temperature metrics).length) :
    ((∃ b, detect_enhanced_thermal_bottleneck metrics = some b ∧
        b.summary = TextT.criticalThermalSummary) ↔
      V.ge (latestTemp metrics) (V.fin 85) = true) ∧
    ((∃ b, detect_enhanced_thermal_bottleneck metrics = some b ∧
        b.summary = TextT.predictiveThermalSummary) ↔
      (V.ge (latestTemp metrics) (V.fin 70) = true ∧
       V.lt (latestTemp metrics) (V.fin 85) = true ∧
       V.ge (tempRiseRate metrics) (V.fin 2) = true)) ∧
    ((∃ b, detect_enhanced_thermal_bottleneck metrics = some b ∧
        b.summary = TextT.warningThermalSummary ∧ b.severity = 50) ↔
      (V.ge (latestTemp metrics) (V.fin 75) = true ∧
       V.lt (latestTemp metrics) (V.fin 85) = true ∧
       ¬(V.ge (latestTemp metrics) (V.fin 70) = true ∧
         V.ge (tempRiseRate metrics) (V.fin 2) = true))) ∧
    (detect_enhanced_thermal_bottleneck metrics = none ↔
      (V.ge (latestTemp metrics) (V.fin 85) = false ∧
       ¬(V.ge (latestTemp metrics) (V.fin 70) = true ∧
         V.ge (tempRiseRate metrics) (V.fin 2) = true) ∧
       V.ge (latestTemp metrics) (V.fin 75) = false)) := by
  have hguard : ¬((ofType .Temperature metrics).length < 2) := not_lt.mpr h2
  by_cases hc : V.ge (latestTemp metrics) (V.fin 85) = true
  · have hlt : V.lt (latestTemp metrics) (V.fin 85) = false := vlt_false_of_ge hc
    refine ⟨?_, ?_, ?_, ?_⟩ <;>
      simp [detect_enhanced_thermal_bottleneck, hguard, hc, hlt]
  · rw [Bool.not_eq_true] at hc
    by_cases h70 : V.ge (latestTemp metrics) (V.fin 70) = true
    · have hlt : V.lt (latestTemp metrics) (V.fin 85) = true := vlt_of_ge_not_ge h70 hc
      by_cases hrate : V.ge (tempRiseRate metrics) (V.fin 2) = true
      · refine ⟨?_, ?_, ?_, ?_⟩ <;>
          simp [detect_enhanced_thermal_bottleneck, hguard, hc, h70, hrate, hlt]
      · rw [Bool.not_eq_true] at hrate
        by_cases hw : V.ge (latestTemp metrics) (V.fin 75) = true
        · refine ⟨?_, ?_, ?_, ?_⟩ <;>
            simp [detect_enhanced_thermal_bottleneck, hguard, hc, h70, hrate, hw, hlt]
        · rw [Bool.not_eq_true] at hw
          refine ⟨?_, ?_, ?_, ?_⟩ <;>
            simp [detect_enhanced_thermal_bottleneck, hguard, hc, h70, hrate, hw]
    · rw [Bool.not_eq_true] at h70
      have hw : V.ge (latestTemp metrics) (V.fin 75) = false := by
        by_cases hw75 : V.ge (latestTemp metrics) (V.fin 75) = true
        · exact absurd (vge_mono (show (70:ℚ) ≤ 75 by norm_num) hw75) (by simp [h70])
        · exact Bool.not_eq_true _ |>.mp hw75
      refine ⟨?_, ?_, ?_, ?_⟩ <;>
        simp [detect_enhanced_thermal_bottleneck, hguard, hc, h70, hw]

/-- C7 — witness: two samples rising from 70 to 90 over a minute, latest 90:
the critical finding fires. -/
theorem enhanced_thermal_iff_witness :
    ∃ b, detect_enhanced_thermal_bottleneck twoTempInput = some b ∧
      b.summary = TextT.criticalThermalSummary :=
  ((enhanced_thermal_iff twoTempInput (by with_unfolding_all decide)).1).mpr
    (by with_unfolding_all rfl)

theorem foldl_vadd_fin {l : List V} (h : ∀ x ∈ l, ∃ a, x = V.fin a) :
    ∀ q : ℚ, ∃ s, l.foldl V.add (V.fin q) = V.fin s := by
  induction l with
  | nil => exact fun q => ⟨q, rfl⟩
  | cons x xs ih =>
      intro q
      obtain ⟨a, ha⟩ := h x (by simp)
      subst ha
      rw [List.foldl_cons]
      exact ih (fun y hy => h y (by simp [hy])) (q + a)

theorem vmean_fin {l : List V} (h : ∀ x ∈ l, ∃ a, x = V.fin a) (hne : l ≠ []) :
    ∃ a, vmean l = V.fin a := by
  obtain ⟨s, hs⟩ := foldl_vadd_fin h 0
  have hlen : ((l.length : ℚ)) ≠ 0 := by
    simp only [ne_eq, Nat.cast_eq_zero]
    exact fun h0 => hne (List.length_eq_zero.mp h0)
  refine ⟨s / l.length, ?_⟩
  unfold vmean vsum
  rw [hs]
  simp [V.div, V.ofNat, hlen]

theorem delta_self_zero {m : List MetricSample} {mt : MetricType} {d : MetricDelta}
    (hfin : ∀ x ∈ m, ∃ q, x.value = V.fin q)
    (hd : metricDeltaFor m m mt = some d) :
    d.delta = V.fin 0 ∧ d.delta_percent = V.fin 0 := by
  unfold metricDeltaFor at hd
  dsimp only [] at hd
  split at hd
  · exact absurd hd (by simp)
  · rename_i hcond
    injection hd with hd
    subst hd
    have hvals : ∀ x ∈ groupVals m mt.debugStr, ∃ a, x = V.fin a := by
      intro x hx
      unfold groupVals at hx
      simp only [List.mem_map, List.mem_filter] at hx
      obtain ⟨ms, ⟨hms, _⟩, hval⟩ := hx
      obtain ⟨q, hq⟩ := hfin ms hms
      exact ⟨q, hval ▸ hq⟩
    have hne : groupVals m mt.debugStr ≠ [] := by
      intro h0
      rw [h0] at hcond
      simp at hcond
    obtain ⟨a, hma⟩ := vmean_fin hvals hne
    constructor
    · simp only [hma, V.sub, V.neg, V.add, V.fin.injEq]
      ring
    · simp only [hma]
      by_cases ha : a = 0
      · subst ha
        simp [V.neb, V.eqb]
      · have hno : V.neb (V.fin a) (V.fin 0) = true := by simp [V.neb, V.eqb, ha]
        have hsub : V.sub (V.fin a) (V.fin a) = V.fin 0 := by
          simp only [V.sub, V.neg, V.add, V.fin.injEq]; ring
        simp [hno, hsub, V.div, V.mul, ha]

theorem change_self_unchanged {ar : Option BottleneckAnalysisResult} {bt : BottleneckType}
    {c : BottleneckChange} (hc : bottleneckChangeFor ar ar bt = some c) :
    c.status = .Unchanged ∧ c.severity_delta = 0 := by
  unfold bottleneckChangeFor at hc
  cases hsev : severityOf ar bt.debugStr with
  | none =>
      rw [hsev] at hc
      simp at hc
  | some s =>
      rw [hsev] at hc
      simp at hc
      rw [← hc]
      exact ⟨rfl, by simp⟩

/-- C8 — counterexample.  A run holding one NaN-valued sample compared against
itself yields a NaN metric delta and a NaN percent delta, not zero. -/
theorem compare_self_nan_counterexample :
    ((compare_runs nanRun nanRun).metric_deltas.map (·.delta)) = [V.nan] ∧
    ((compare_runs nanRun nanRun).metric_deltas.map (·.delta_percent)) = [V.nan] ∧
    V.nan ≠ V.fin 0 := by
  refine ⟨by with_unfolding_all rfl, by with_unfolding_all rfl, by simp⟩

/-- C8 — amended.  For every run whose stored sample values are all finite,
`compare(run, run)` yields metric deltas that are all exactly zero (both the
absolute delta and the percent delta); and for every run whatsoever — finite
or not — all bottleneck transitions are `Unchanged` with
`severity_delta = 0`. -/
theorem compare_self_zero (r : Run) :
    (allFiniteRun r →
      ∀ d ∈ (compare_runs r r).metric_deltas,
        d.delta = V.fin 0 ∧ d.delta_percent = V.fin 0) ∧
    (∀ c ∈ (compare_runs r r).bottleneck_changes,
      c.status = .Unchanged ∧ c.severity_delta = 0) := by
  constructor
  · intro hfin d hd
    have hmem : d ∈ metricDeltas r r := hd
    unfold metricDeltas at hmem
    rw [List.mem_filterMap] at hmem
    obtain ⟨mt, _, hmt⟩ := hmem
    exact delta_self_zero hfin hmt
  · intro c hcm
    have hmem : c ∈ compare_bottlenecks r.analysis_result r.analysis_result := hcm
    unfold compare_bottlenecks at hmem
    rw [List.mem_filterMap] at hmem
    obtain ⟨bt, _, hbt⟩ := hmem
    exact change_self_unchanged hbt

/-- C8 — witness: the finite two-sample run compared with itself has the
zero-delta processor entry. -/
theorem compare_self_zero_witness :
    ({ metric_type := "CpuUtilization", run1_avg := V.fin 85, run2_avg := V.fin 85,
       delta := V.fin 0, delta_percent := V.fin 0, unit := "" } : MetricDelta).delta =
        V.fin 0 ∧
    ({ metric_type := "CpuUtilization", run1_avg := V.fin 85, run2_avg := V.fin 85,
       delta := V.fin 0, delta_percent := V.fin 0, unit := "" } : MetricDelta).delta_percent =
        V.fin 0 :=
  (compare_self_zero finiteRun).1 (by
    intro m hm
    have hm2 : m = sampleAt 0 .CpuUtilization (V.fin 80) ∨
        m = sampleAt 1 .CpuUtilization (V.fin 90) := by
      simpa [finiteRun, flatten_metrics] using hm
    rcases hm2 with h | h <;> subst h <;> exact ⟨_, rfl⟩) _
    (by with_unfolding_all decide)

/-- C9 — confirmed.  Starting from a buffer within its capacity, each
per-sample append of the sampling tick keeps the buffer at or below the
configured capacity; an append from strictly below capacity only appends at
the tail; an append at capacity appends at the tail and evicts exactly the
oldest (front) sample; and a whole batch keeps the bound. -/
theorem ring_buffer_fifo (cap : ℕ) (buf : List MetricSample) (s : MetricSample)
    (h : buf.length ≤ cap) :
    (pushEvict cap buf s).length ≤ cap ∧
    (buf.length < cap → pushEvict cap buf s = buf ++ [s]) ∧
    (buf.length = cap → pushEvict cap buf s = (buf ++ [s]).tail) ∧
    (∀ batch, (appendBatch cap buf batch).length ≤ cap) := by
  refine ⟨pushEvict_length_le cap buf s h, ?_, ?_,
    fun batch => appendBatch_length_le cap batch buf h⟩
  · intro hlt
    unfold pushEvict
    rw [if_neg (by simp; omega)]
  · intro heq
    unfold pushEvict
    rw [if_pos (by simp; omega)]

/-- C9 — witness: a one-sample buffer at capacity 1 stays within capacity
after an append. -/
theorem ring_buffer_fifo_witness :
    (pushEvict 1 [dummySample] dummySample).length ≤ 1 :=
  (ring_buffer_fifo 1 [dummySample] dummySample (by decide)).1

/-- C10 — counterexample.  `start` on a running collector fails with
`MetricsError::Unknown("Collector already running")` — the catch-all
`Unknown` variant carrying a message; the `MetricsError` enum has no
dedicated `AlreadyRunning` constructor, so the claim's "explicit
AlreadyRunning error" does not hold. -/
theorem start_running_unknown_error :
    startCollector runningState =
      (.error (.Unknown "Collector already running"), runningState, false) ∧
    MetricsError.isUnknownVariant (MetricsError.Unknown "Collector already running") = true :=
  ⟨rfl, rfl⟩

/-- C10 — amended.  `start` while running fails with the generic
`Unknown("Collector already running")` error (not a dedicated variant) and
has no side effect: the state is returned unchanged and no sampling task is
spawned; `start` on a stopped collector (in particular after `stop`)
succeeds and spawns the task. -/
theorem start_stop_contract (s : CollectorState) :
    (s.running = true →
      startCollector s = (.error (.Unknown "Collector already running"), s, false)) ∧
    (s.running = false →
      startCollector s = (.ok (), { s with running := true }, true)) ∧
    (startCollector (stopCollector s)).1 = .ok () ∧
    (startCollector (stopCollector s)).2.2 = true := by
  refine ⟨?_, ?_, ?_, ?_⟩
  · intro h
    unfold startCollector
    rw [if_pos h]
  · intro h
    unfold startCollector
    rw [if_neg (by simp [h])]
  · simp [startCollector, stopCollector]
  · simp [startCollector, stopCollector]

/-- C10 — witness: restarting after a stop yields `Ok`. -/
theorem start_stop_contract_witness :
    (startCollector (stopCollector runningState)).1 = .ok () :=
  (start_stop_contract runningState).2.2.1
